import Mathlib

/-!
Shallow embedding of `src/core/audits/largest-contentful-paint-element.js`
(Lighthouse's "Largest Contentful Paint element" audit).

JavaScript numbers are modelled as exact rationals (`ℚ`).  The upstream
computed artifacts (network records, processed navigation, metric result,
main resource) are out of scope for this core and enter the embedded
functions as already-resolved values, exactly as the audit consumes them
after its `await`s.  The LCP record resolver (`PrioritizeLcpImage.getLcpRecord`)
is likewise consumed as an already-resolved `Option LcpRecord`.
-/

namespace LcpElement

/-- A network record, as consumed by the audit: `requestId`,
`networkRequestTime` and `networkEndTime` (observed timings). -/
structure LcpRecord where
  requestId : Nat
  networkRequestTime : ℚ
  networkEndTime : ℚ
  deriving DecidableEq, Repr

/-- A lantern simulation-graph node as the audit reads it: its `type`
string and, for network nodes, the backing record's `requestId`
(`node.record.requestId`). -/
structure SimNode where
  type : String
  recordRequestId : Nat
  deriving DecidableEq, Repr

/-- A simulation node timing entry: `{startTime, endTime}`. -/
structure NodeTiming where
  startTime : ℚ
  endTime : ℚ
  deriving DecidableEq, Repr

/-- The `pessimisticEstimate` of a simulated metric result: its
`nodeTimings` map, modelled as the association list the audit's
`for (const [node, timing] of ...)` loop iterates over. -/
structure PessimisticEstimate where
  nodeTimings : List (SimNode × NodeTiming)
  deriving DecidableEq, Repr

/-- The LCP metric result: total `timing` and, when the metric was
simulated, a `pessimisticEstimate` (`'pessimisticEstimate' in metricResult`
is modelled by the option being `some`). -/
structure MetricResult where
  timing : ℚ
  pessimisticEstimate : Option PessimisticEstimate
  deriving DecidableEq, Repr

/-- The main resource record, of which the audit reads
`responseHeadersEndTime`. -/
structure MainResource where
  responseHeadersEndTime : ℚ
  deriving DecidableEq, Repr

/-- Processed navigation, of which the audit reads
`timestamps.timeOrigin`. -/
structure ProcessedNavigation where
  timeOrigin : ℚ
  deriving DecidableEq, Repr

/-- A `TraceElements` artifact entry: its `traceEventType` and a backing
DOM node, modelled as an opaque identifier. -/
structure TraceElement where
  traceEventType : String
  node : Nat
  deriving DecidableEq, Repr

/-- One row of the phase table: `{phase, timing}`. -/
structure PhaseEntry where
  phase : String
  timing : ℚ
  deriving DecidableEq, Repr

/-- JavaScript falsiness of a possibly-undefined number:
`undefined` and `0` are falsy (`!lcpLoadStartTs`). -/
def falsyNum : Option ℚ → Bool
  | none => true
  | some x => x == 0

/-- The body of one iteration of the audit's
`for (const [node, timing] of metricResult.pessimisticEstimate.nodeTimings)`
loop: a network node whose record's `requestId` equals the LCP record's
overwrites `(lcpLoadStartTs, lcpLoadEndTs)` with
`(timing.startTime * 1000 + timeOriginTs, timing.endTime * 1000 + timeOriginTs)`;
any other node leaves them unchanged. -/
def simStep (requestId : Nat) (timeOriginTs : ℚ)
    (acc : Option ℚ × Option ℚ) (nt : SimNode × NodeTiming) :
    Option ℚ × Option ℚ :=
  if nt.1.type = "network" ∧ nt.1.recordRequestId = requestId then
    (some (nt.2.startTime * 1000 + timeOriginTs),
     some (nt.2.endTime * 1000 + timeOriginTs))
  else acc

/-- The audit's `if ('pessimisticEstimate' in metricResult)` branch:
iterate over `nodeTimings` with `simStep`, both timestamps starting as
`undefined` (`(none, none)`). -/
def simLoadTs (nodeTimings : List (SimNode × NodeTiming)) (requestId : Nat)
    (timeOriginTs : ℚ) : Option ℚ × Option ℚ :=
  nodeTimings.foldl (simStep requestId timeOriginTs) (none, none)

/-- Lines 64-80 of the audit: resolution of
`(lcpLoadStartTs, lcpLoadEndTs)` from either the simulated estimate or
the observed record timings (`lcpRecord.networkRequestTime * 1000`,
`lcpRecord.networkEndTime * 1000`). -/
def selectLoadTs (metricResult : MetricResult) (lcpRecord : LcpRecord)
    (timeOriginTs : ℚ) : Option ℚ × Option ℚ :=
  match metricResult.pessimisticEstimate with
  | some est => simLoadTs est.nodeTimings lcpRecord.requestId timeOriginTs
  | none =>
      (some (lcpRecord.networkRequestTime * 1000),
       some (lcpRecord.networkEndTime * 1000))

/-- `makePhaseTable`, lines 46-107: returns the four-row phase table, or
`none` when the LCP record is missing or a resolved load timestamp is
falsy.  The upstream computed artifacts are passed in resolved form. -/
def makePhaseTable (processedNavigation : ProcessedNavigation)
    (metricResult : MetricResult) (mainResource : MainResource)
    (lcpRecord : Option LcpRecord) : Option (List PhaseEntry) :=
  match lcpRecord with
  | none => none
  | some record =>
      let timeOriginTs := processedNavigation.timeOrigin
      let firstByteTs := mainResource.responseHeadersEndTime * 1000
      let loadTs := selectLoadTs metricResult record timeOriginTs
      if falsyNum loadTs.1 ∨ falsyNum loadTs.2 then none
      else
        let lcpLoadStartTs := loadTs.1.getD 0
        let lcpLoadEndTs := loadTs.2.getD 0
        let ttfb := (firstByteTs - timeOriginTs) / 1000
        let loadDelay := (lcpLoadStartTs - firstByteTs) / 1000
        let loadTime := (lcpLoadEndTs - lcpLoadStartTs) / 1000
        let renderDelay := metricResult.timing - loadTime - loadDelay - ttfb
        some [⟨"TTFB", ttfb⟩,
              ⟨"Load Delay", loadDelay⟩,
              ⟨"Load Time", loadTime⟩,
              ⟨"Render Delay", renderDelay⟩]

/-- One item of the audit's `details` list: the element table (node rows)
or the phase table. -/
inductive TableItem where
  | elementTable (nodes : List Nat)
  | phaseTable (entries : List PhaseEntry)
  deriving DecidableEq, Repr

/-- The audit's product: `score`, `notApplicable`, the node count shown in
the display value, and the list-of-tables details. -/
structure AuditProduct where
  score : ℚ
  notApplicable : Bool
  displayValueNodeCount : Nat
  details : List TableItem
  deriving DecidableEq, Repr

/-- Lines 115-122: the element rows, one per found
`largest-contentful-paint` trace element (at most one, via `find`). -/
def lcpElementNodes (traceElements : List TraceElement) : List Nat :=
  match traceElements.find?
      (fun e => e.traceEventType == "largest-contentful-paint") with
  | some e => [e.node]
  | none => []

/-- `audit`, lines 114-146: assembles the element table, appends the phase
table when `makePhaseTable` produced one, and returns score 1 with
`notApplicable` iff no LCP trace element was found. -/
def audit (traceElements : List TraceElement)
    (processedNavigation : ProcessedNavigation) (metricResult : MetricResult)
    (mainResource : MainResource) (lcpRecord : Option LcpRecord) :
    AuditProduct :=
  let lcpElementDetails := lcpElementNodes traceElements
  let elementTable := TableItem.elementTable lcpElementDetails
  let items :=
    match makePhaseTable processedNavigation metricResult mainResource
        lcpRecord with
    | some t => [elementTable, TableItem.phaseTable t]
    | none => [elementTable]
  { score := 1
    notApplicable := lcpElementDetails.length == 0
    displayValueNodeCount := lcpElementDetails.length
    details := items }

/-! ### Helper lemmas about the simulation-node loop -/

/-- A fold over nodes none of which matches leaves the accumulator
unchanged. -/
lemma foldl_simStep_of_no_match (reqId : Nat) (toTs : ℚ)
    (l : List (SimNode × NodeTiming)) (acc : Option ℚ × Option ℚ)
    (h : ∀ p ∈ l, ¬(p.1.type = "network" ∧ p.1.recordRequestId = reqId)) :
    l.foldl (simStep reqId toTs) acc = acc := by
  induction l generalizing acc with
  | nil => rfl
  | cons p rest ih =>
      have hp := h p (List.mem_cons_self p rest)
      have hrest : ∀ q ∈ rest, ¬(q.1.type = "network" ∧ q.1.recordRequestId = reqId) :=
        fun q hq => h q (List.mem_cons_of_mem p hq)
      simp only [List.foldl_cons, simStep, if_neg hp]
      exact ih acc hrest

/-- If every matching node of the list is `(n, t)`, folding from the pair
that `(n, t)` produces returns that same pair. -/
lemma foldl_simStep_fixed (reqId : Nat) (toTs : ℚ) (n : SimNode) (t : NodeTiming)
    (l : List (SimNode × NodeTiming))
    (huniq : ∀ p ∈ l, p.1.type = "network" ∧ p.1.recordRequestId = reqId → p = (n, t)) :
    l.foldl (simStep reqId toTs)
        (some (t.startTime * 1000 + toTs), some (t.endTime * 1000 + toTs)) =
      (some (t.startTime * 1000 + toTs), some (t.endTime * 1000 + toTs)) := by
  induction l with
  | nil => rfl
  | cons p rest ih =>
      have hrest : ∀ q ∈ rest, q.1.type = "network" ∧ q.1.recordRequestId = reqId → q = (n, t) :=
        fun q hq => huniq q (List.mem_cons_of_mem p hq)
      by_cases hp : p.1.type = "network" ∧ p.1.recordRequestId = reqId
      · have hpe : p = (n, t) := huniq p (List.mem_cons_self p rest) hp
        subst hpe
        simp only [List.foldl_cons, simStep, if_pos hp]
        exact ih hrest
      · simp only [List.foldl_cons, simStep, if_neg hp]
        exact ih hrest

/-- When `(n, t)` is the unique matching entry of the node-timing list, the
loop resolves to `(n, t)`'s converted timings. -/
lemma simLoadTs_of_unique_match (reqId : Nat) (toTs : ℚ) (n : SimNode)
    (t : NodeTiming) (l : List (SimNode × NodeTiming))
    (hmem : (n, t) ∈ l)
    (hnet : n.type = "network" ∧ n.recordRequestId = reqId)
    (huniq : ∀ p ∈ l, p.1.type = "network" ∧ p.1.recordRequestId = reqId → p = (n, t)) :
    simLoadTs l reqId toTs =
      (some (t.startTime * 1000 + toTs), some (t.endTime * 1000 + toTs)) := by
  unfold simLoadTs
  induction l with
  | nil => exact absurd hmem (List.not_mem_nil _)
  | cons p rest ih =>
      have hrest : ∀ q ∈ rest, q.1.type = "network" ∧ q.1.recordRequestId = reqId → q = (n, t) :=
        fun q hq => huniq q (List.mem_cons_of_mem p hq)
      by_cases hp : p.1.type = "network" ∧ p.1.recordRequestId = reqId
      · have hpe : p = (n, t) := huniq p (List.mem_cons_self p rest) hp
        subst hpe
        simp only [List.foldl_cons, simStep, if_pos hp]
        exact foldl_simStep_fixed reqId toTs n t rest hrest
      · have hmem' : (n, t) ∈ rest := by
          rcases List.mem_cons.mp hmem with he | hr
          · exact absurd hnet (by rw [← he] at hp; exact hp)
          · exact hr
        simp only [List.foldl_cons, simStep, if_neg hp]
        exact ih hmem' hrest

/-- The loop resolves to `(none, none)` when no node matches. -/
lemma simLoadTs_of_no_match (reqId : Nat) (toTs : ℚ)
    (l : List (SimNode × NodeTiming))
    (h : ∀ p ∈ l, ¬(p.1.type = "network" ∧ p.1.recordRequestId = reqId)) :
    simLoadTs l reqId toTs = (none, none) :=
  foldl_simStep_of_no_match reqId toTs l (none, none) h

/-! ### Inversion of `makePhaseTable` -/

/-- Whenever `makePhaseTable` produces a table, the input record is
present and the table is exactly the four rows computed from the resolved
load timestamps, the first-byte time and the metric timing. -/
lemma makePhaseTable_some_elim {pn : ProcessedNavigation} {mr : MetricResult}
    {ms : MainResource} {lr : Option LcpRecord} {tbl : List PhaseEntry}
    (h : makePhaseTable pn mr ms lr = some tbl) :
    ∃ r, lr = some r ∧
      tbl = [⟨"TTFB", (ms.responseHeadersEndTime * 1000 - pn.timeOrigin) / 1000⟩,
             ⟨"Load Delay", ((selectLoadTs mr r pn.timeOrigin).1.getD 0
               - ms.responseHeadersEndTime * 1000) / 1000⟩,
             ⟨"Load Time", ((selectLoadTs mr r pn.timeOrigin).2.getD 0
               - (selectLoadTs mr r pn.timeOrigin).1.getD 0) / 1000⟩,
             ⟨"Render Delay", mr.timing
               - ((selectLoadTs mr r pn.timeOrigin).2.getD 0
                  - (selectLoadTs mr r pn.timeOrigin).1.getD 0) / 1000
               - ((selectLoadTs mr r pn.timeOrigin).1.getD 0
                  - ms.responseHeadersEndTime * 1000) / 1000
               - (ms.responseHeadersEndTime * 1000 - pn.timeOrigin) / 1000⟩] := by
  cases lr with
  | none => simp [makePhaseTable] at h
  | some r =>
      refine ⟨r, rfl, ?_⟩
      simp only [makePhaseTable] at h
      split at h
      · exact absurd h (by simp)
      · exact (Option.some.injEq _ _ ▸ h).symm

/-! ### Claims -/

/-- Claim C1: for every input on which a phase breakdown is produced, the
four emitted durations satisfy
`ttfb + loadDelay + loadTime + renderDelay = metricResult.timing` exactly,
because Render Delay is computed as the residual
`timing - loadTime - loadDelay - ttfb`. -/
theorem C1_phase_sum_eq_timing (pn : ProcessedNavigation) (mr : MetricResult)
    (ms : MainResource) (lr : Option LcpRecord) (tbl : List PhaseEntry)
    (h : makePhaseTable pn mr ms lr = some tbl) :
    (tbl.map PhaseEntry.timing).sum = mr.timing := by
  obtain ⟨r, -, htbl⟩ := makePhaseTable_some_elim h
  subst htbl
  simp only [List.map_cons, List.map_nil, List.sum_cons, List.sum_nil]
  ring

/-- Claim C1 witness: a concrete observed-timing input whose four phases
sum to the metric timing 10. -/
theorem C1_phase_sum_eq_timing_witness :
    (([⟨"TTFB", 2⟩, ⟨"Load Delay", -1⟩, ⟨"Load Time", 2⟩,
       ⟨"Render Delay", 7⟩] : List PhaseEntry).map PhaseEntry.timing).sum =
      (MetricResult.mk 10 none).timing :=
  C1_phase_sum_eq_timing ⟨0⟩ ⟨10, none⟩ ⟨2⟩ (some ⟨7, 1, 3⟩) _
    (by norm_num [makePhaseTable, selectLoadTs, simLoadTs, falsyNum])

/-- Claim C2 counterexample: on a concrete input the computed Load Delay
is negative (the LCP resource's fetch starts before the main document's
first byte), yet the phase table IS produced and the negative value is
emitted; the code only guards against falsy load timestamps, not against
negative TTFB/Load Delay/Load Time. -/
theorem C2_counterexample :
    makePhaseTable ⟨0⟩ ⟨10, none⟩ ⟨2⟩ (some ⟨7, 1, 3⟩) =
      some [⟨"TTFB", 2⟩, ⟨"Load Delay", -1⟩, ⟨"Load Time", 2⟩,
            ⟨"Render Delay", 7⟩] ∧
    (-1 : ℚ) < 0 := by
  constructor
  · norm_num [makePhaseTable, selectLoadTs, simLoadTs, falsyNum]
  · norm_num

/-- Claim C2 amended: the phase table is omitted exactly when a resolved
load timestamp is zero or undefined (given the LCP record exists); whether
TTFB, Load Delay, or Load Time would be negative plays no role, and
negative values are emitted rather than suppressed. -/
theorem C2_amended_table_production (pn : ProcessedNavigation)
    (mr : MetricResult) (ms : MainResource) (r : LcpRecord) :
    (makePhaseTable pn mr ms (some r)).isSome =
      !(falsyNum (selectLoadTs mr r pn.timeOrigin).1 ||
        falsyNum (selectLoadTs mr r pn.timeOrigin).2) := by
  simp only [makePhaseTable]
  split
  · next hc =>
      simp only [Option.isSome_none, Bool.or_eq_true] at hc ⊢
      rcases hc with hc | hc <;> simp [hc]
  · next hc =>
      push_neg at hc
      simp only [Option.isSome_some, Bool.not_eq_true] at hc ⊢
      simp [hc.1, hc.2]

/-- Claim C9: whenever a phase breakdown is produced, it contains exactly
four entries in the fixed order TTFB, Load Delay, Load Time,
Render Delay. -/
theorem C9_four_phases_in_order (pn : ProcessedNavigation)
    (mr : MetricResult) (ms : MainResource) (lr : Option LcpRecord)
    (tbl : List PhaseEntry) (h : makePhaseTable pn mr ms lr = some tbl) :
    tbl.map PhaseEntry.phase =
      ["TTFB", "Load Delay", "Load Time", "Render Delay"] := by
  obtain ⟨r, -, htbl⟩ := makePhaseTable_some_elim h
  subst htbl
  rfl

/-- Claim C9 witness: a concrete input whose produced table lists the four
phases in order. -/
theorem C9_four_phases_in_order_witness :
    (([⟨"TTFB", 2⟩, ⟨"Load Delay", -1⟩, ⟨"Load Time", 2⟩,
       ⟨"Render Delay", 7⟩] : List PhaseEntry).map PhaseEntry.phase) =
      ["TTFB", "Load Delay", "Load Time", "Render Delay"] :=
  C9_four_phases_in_order ⟨0⟩ ⟨10, none⟩ ⟨2⟩ (some ⟨7, 1, 3⟩) _
    (by norm_num [makePhaseTable, selectLoadTs, simLoadTs, falsyNum])

/-- Claim C3 counterexample: in the observed path (no pessimistic
estimate) the record's `networkRequestTime` is NOT used directly as
`lcpLoadStartTs`: the code multiplies it by 1000.  With
`networkRequestTime = 2` the resolved start timestamp is 2000, not 2. -/
theorem C3_counterexample :
    (selectLoadTs ⟨10, none⟩ ⟨7, 2, 4⟩ 5).1 = some 2000 ∧
    (selectLoadTs ⟨10, none⟩ ⟨7, 2, 4⟩ 5).1 ≠
      some (LcpRecord.mk 7 2 4).networkRequestTime := by
  constructor
  · norm_num [selectLoadTs]
  · norm_num [selectLoadTs]

/-- Claim C3 amended: when the metric result carries a pessimistic
estimate, the load timestamps come from the matching network-kind
simulation node as `startTime*1000 + timeOrigin` / `endTime*1000 +
timeOrigin`; when it carries none, they are the record's
`networkRequestTime` and `networkEndTime` each multiplied by 1000 (a unit
conversion, with no time-origin offset added). -/
theorem C3_amended_timing_source (mr mrObs : MetricResult)
    (est : PessimisticEstimate) (r : LcpRecord) (toTs : ℚ)
    (n : SimNode) (t : NodeTiming)
    (hsim : mr.pessimisticEstimate = some est)
    (hmem : (n, t) ∈ est.nodeTimings)
    (hnet : n.type = "network" ∧ n.recordRequestId = r.requestId)
    (huniq : ∀ p ∈ est.nodeTimings,
      p.1.type = "network" ∧ p.1.recordRequestId = r.requestId → p = (n, t))
    (hobs : mrObs.pessimisticEstimate = none) :
    selectLoadTs mr r toTs =
      (some (t.startTime * 1000 + toTs), some (t.endTime * 1000 + toTs)) ∧
    selectLoadTs mrObs r toTs =
      (some (r.networkRequestTime * 1000), some (r.networkEndTime * 1000)) := by
  constructor
  · simp only [selectLoadTs, hsim]
    exact simLoadTs_of_unique_match r.requestId toTs n t est.nodeTimings
      hmem hnet huniq
  · simp [selectLoadTs, hobs]

/-- Claim C3 amended witness: a concrete simulated input (matching node
`startTime = 3`, `endTime = 5`, `timeOrigin = 1000`) resolving to
`(4000, 6000)`, and a concrete observed input resolving to record times
scaled by 1000. -/
theorem C3_amended_timing_source_witness :
    selectLoadTs ⟨10, some ⟨[(⟨"network", 7⟩, ⟨3, 5⟩)]⟩⟩ ⟨7, 99, 88⟩ 1000 =
      (some 4000, some 6000) ∧
    selectLoadTs ⟨10, none⟩ ⟨7, 99, 88⟩ 1000 =
      (some 99000, some 88000) := by
  have h := C3_amended_timing_source
    ⟨10, some ⟨[(⟨"network", 7⟩, ⟨3, 5⟩)]⟩⟩ ⟨10, none⟩
    ⟨[(⟨"network", 7⟩, ⟨3, 5⟩)]⟩ ⟨7, 99, 88⟩ 1000 ⟨"network", 7⟩ ⟨3, 5⟩
    rfl (by simp) (by constructor <;> rfl)
    (by intro p hp hm; simpa using hp) rfl
  constructor
  · rw [h.1]; norm_num
  · rw [h.2]; norm_num

/-- Claim C4 counterexample: on a concrete input the emitted TTFB is 2,
while the claim's formula `firstByteAbsoluteTs − timeOrigin`
(`responseHeadersEndTime * 1000 − timeOrigin`) gives 2000: the code
additionally divides by 1000. -/
theorem C4_counterexample :
    ((makePhaseTable ⟨0⟩ ⟨10, none⟩ ⟨2⟩ (some ⟨7, 1, 3⟩)).getD []).head? =
      some ⟨"TTFB", 2⟩ ∧
    (2 : ℚ) ≠ (MainResource.mk 2).responseHeadersEndTime * 1000 -
      (ProcessedNavigation.mk 0).timeOrigin := by
  constructor
  · norm_num [makePhaseTable, selectLoadTs, simLoadTs, falsyNum]
  · norm_num

/-- Claim C4 amended: the TTFB phase equals
`(responseHeadersEndTime * 1000 − timeOrigin) / 1000`, anchored on the
main resource's response-headers-end time (never on the LCP record's own
request start), the difference being scaled from microseconds to
milliseconds. -/
theorem C4_amended_ttfb (pn : ProcessedNavigation) (mr : MetricResult)
    (ms : MainResource) (lr : Option LcpRecord) (tbl : List PhaseEntry)
    (h : makePhaseTable pn mr ms lr = some tbl) :
    tbl.head? =
      some ⟨"TTFB", (ms.responseHeadersEndTime * 1000 - pn.timeOrigin) / 1000⟩ := by
  obtain ⟨r, -, htbl⟩ := makePhaseTable_some_elim h
  subst htbl
  rfl

/-- Claim C4 amended witness: on the concrete input with
`responseHeadersEndTime = 2` and `timeOrigin = 0` the emitted TTFB row is
`(2 * 1000 - 0) / 1000 = 2`. -/
theorem C4_amended_ttfb_witness :
    (([⟨"TTFB", 2⟩, ⟨"Load Delay", -1⟩, ⟨"Load Time", 2⟩,
       ⟨"Render Delay", 7⟩] : List PhaseEntry).head?) =
      some ⟨"TTFB", ((MainResource.mk 2).responseHeadersEndTime * 1000 -
        (ProcessedNavigation.mk 0).timeOrigin) / 1000⟩ :=
  C4_amended_ttfb ⟨0⟩ ⟨10, none⟩ ⟨2⟩ (some ⟨7, 1, 3⟩) _
    (by norm_num [makePhaseTable, selectLoadTs, simLoadTs, falsyNum])

/-- Claim C5: source exclusivity.  When the metric result carries a
pessimistic estimate, the produced breakdown does not depend on the LCP
record's observed `networkRequestTime`/`networkEndTime` (varying them
yields identical output); when it carries none, the breakdown does not
depend on any simulation-node timings (it is determined by the metric
timing alone, there being no estimate to consult). -/
theorem C5_source_exclusivity (pn : ProcessedNavigation)
    (mr mrObs mrObs2 : MetricResult) (ms : MainResource) (r : LcpRecord)
    (a b : ℚ)
    (hsim : mr.pessimisticEstimate.isSome = true)
    (hobs : mrObs.pessimisticEstimate = none)
    (hobs2 : mrObs2.pessimisticEstimate = none)
    (ht : mrObs.timing = mrObs2.timing) :
    makePhaseTable pn mr ms
        (some { r with networkRequestTime := a, networkEndTime := b }) =
      makePhaseTable pn mr ms (some r) ∧
    makePhaseTable pn mrObs ms (some r) =
      makePhaseTable pn mrObs2 ms (some r) := by
  constructor
  · obtain ⟨est, hest⟩ := Option.isSome_iff_exists.mp hsim
    simp [makePhaseTable, selectLoadTs, hest]
  · have : mrObs = mrObs2 := by
      cases mrObs; cases mrObs2
      simp_all
    rw [this]

/-- Claim C5 witness: concrete simulated input where perturbing the
record's observed times (1, 3) to (42, 43) leaves the result unchanged,
and two observed-path metric results with equal timing agree. -/
theorem C5_source_exclusivity_witness :
    makePhaseTable ⟨1000⟩ ⟨10, some ⟨[(⟨"network", 7⟩, ⟨3, 5⟩)]⟩⟩ ⟨2⟩
        (some ⟨7, 42, 43⟩) =
      makePhaseTable ⟨1000⟩ ⟨10, some ⟨[(⟨"network", 7⟩, ⟨3, 5⟩)]⟩⟩ ⟨2⟩
        (some ⟨7, 1, 3⟩) ∧
    makePhaseTable ⟨1000⟩ ⟨10, none⟩ ⟨2⟩ (some ⟨7, 1, 3⟩) =
      makePhaseTable ⟨1000⟩ ⟨10, none⟩ ⟨2⟩ (some ⟨7, 1, 3⟩) :=
  C5_source_exclusivity ⟨1000⟩ ⟨10, some ⟨[(⟨"network", 7⟩, ⟨3, 5⟩)]⟩⟩
    ⟨10, none⟩ ⟨10, none⟩ ⟨2⟩ ⟨7, 1, 3⟩ 42 43 rfl rfl rfl rfl

/-- Claim C6: whenever a resolved load timestamp is zero or undefined —
in particular when a pessimistic estimate exists but no network-kind node
matches the record's `requestId` — the decomposition is aborted and no
phase table is produced. -/
theorem C6_unavailable_timestamp_aborts (pn : ProcessedNavigation)
    (mr : MetricResult) (ms : MainResource) (r : LcpRecord)
    (h : falsyNum (selectLoadTs mr r pn.timeOrigin).1 = true ∨
         falsyNum (selectLoadTs mr r pn.timeOrigin).2 = true ∨
         ∃ est, mr.pessimisticEstimate = some est ∧
           ∀ p ∈ est.nodeTimings,
             ¬(p.1.type = "network" ∧ p.1.recordRequestId = r.requestId)) :
    makePhaseTable pn mr ms (some r) = none := by
  have hfal : falsyNum (selectLoadTs mr r pn.timeOrigin).1 = true ∨
      falsyNum (selectLoadTs mr r pn.timeOrigin).2 = true := by
    rcases h with h | h | ⟨est, hest, hno⟩
    · exact Or.inl h
    · exact Or.inr h
    · left
      have hsel : selectLoadTs mr r pn.timeOrigin = (none, none) := by
        simp only [selectLoadTs, hest]
        exact simLoadTs_of_no_match r.requestId pn.timeOrigin
          est.nodeTimings hno
      rw [hsel]
      rfl
  simp only [makePhaseTable]
  rw [if_pos]
  exact hfal

/-- Claim C6 witness: a pessimistic estimate whose only node is a
non-network (`"cpu"`) node leaves both load timestamps undefined, and the
phase table is omitted. -/
theorem C6_unavailable_timestamp_aborts_witness :
    makePhaseTable ⟨0⟩ ⟨10, some ⟨[(⟨"cpu", 7⟩, ⟨3, 5⟩)]⟩⟩ ⟨2⟩
      (some ⟨7, 1, 3⟩) = none :=
  C6_unavailable_timestamp_aborts ⟨0⟩ ⟨10, some ⟨[(⟨"cpu", 7⟩, ⟨3, 5⟩)]⟩⟩
    ⟨2⟩ ⟨7, 1, 3⟩
    (Or.inr (Or.inr ⟨⟨[(⟨"cpu", 7⟩, ⟨3, 5⟩)]⟩, rfl, by
      intro p hp
      simp only [List.mem_singleton] at hp
      subst hp
      simp⟩))

/-- Claim C7: when the LCP record resolver returns no record, the
computation short-circuits: no phase table is produced (never a partial
one) and the audit's details consist of exactly the element summary
group. -/
theorem C7_no_record_short_circuit (te : List TraceElement)
    (pn : ProcessedNavigation) (mr : MetricResult) (ms : MainResource) :
    makePhaseTable pn mr ms none = none ∧
    (audit te pn mr ms none).details =
      [TableItem.elementTable (lcpElementNodes te)] := by
  constructor
  · rfl
  · simp [audit, makePhaseTable]

/-- Claim C8: the audit is total on well-formed inputs and every failure
path degrades to a valid result: the score is always 1 and the details
are either the element table alone or the element table followed by the
produced phase table. -/
theorem C8_audit_total (te : List TraceElement) (pn : ProcessedNavigation)
    (mr : MetricResult) (ms : MainResource) (lr : Option LcpRecord) :
    (audit te pn mr ms lr).score = 1 ∧
    ((audit te pn mr ms lr).details =
        [TableItem.elementTable (lcpElementNodes te)] ∨
      ∃ tbl, makePhaseTable pn mr ms lr = some tbl ∧
        (audit te pn mr ms lr).details =
          [TableItem.elementTable (lcpElementNodes te),
           TableItem.phaseTable tbl]) := by
  constructor
  · cases h : makePhaseTable pn mr ms lr <;> simp [audit, h]
  · cases h : makePhaseTable pn mr ms lr with
    | none => left; simp [audit, h]
    | some tbl => right; exact ⟨tbl, rfl, by simp [audit, h]⟩

/-- Claim C10: the `notApplicable` flag depends only on whether a
`largest-contentful-paint` trace element exists, the score is always 1,
and the phase table is decided independently: on a concrete input with no
trace elements but a resolvable LCP record, the result is notApplicable
yet still carries a phase breakdown (two detail groups). -/
theorem C10_notApplicable_independent (te : List TraceElement)
    (pn : ProcessedNavigation) (mr : MetricResult) (ms : MainResource)
    (lr : Option LcpRecord) :
    (audit te pn mr ms lr).notApplicable =
      (te.find? (fun e => e.traceEventType == "largest-contentful-paint")).isNone ∧
    (audit te pn mr ms lr).score = 1 ∧
    ((audit [] ⟨0⟩ ⟨10, none⟩ ⟨2⟩ (some ⟨7, 1, 3⟩)).notApplicable = true ∧
     (audit [] ⟨0⟩ ⟨10, none⟩ ⟨2⟩ (some ⟨7, 1, 3⟩)).details.length = 2) := by
  refine ⟨?_, ?_, ?_, ?_⟩
  · cases h : te.find? (fun e => e.traceEventType == "largest-contentful-paint") <;>
      simp [audit, lcpElementNodes, h]
  · cases h : makePhaseTable pn mr ms lr <;> simp [audit, h]
  · rfl
  · norm_num [audit, lcpElementNodes, makePhaseTable, selectLoadTs,
      simLoadTs, falsyNum]

end LcpElement
